import Mathlib

/-!
Verification of the hekestam-docx image-header parsing subsystem and the
styles-part element helpers.

The PNG header parser (chunk index, field extractors, header parser and
image facade) is modelled from the specification, since only its test
suite appears in the excerpt; the styles helpers (`styleId_from_name`,
`CT_Styles.default_for`, `CT_Style.semiHidden_val`) are embedded directly
from `docx/oxml/styles.py`.
-/

set_option autoImplicit false

/-- A fully-buffered byte source: a finite sequence of byte values,
addressable by absolute offset. -/
abbrev ByteStream := List Nat

/-- Modelled from the spec: error taxonomy (§7) of the image subsystem.
`OutOfBoundsError` for reads past declared stream bounds,
`InvalidImageStreamError` for structurally invalid streams. -/
inductive ImgError
  | outOfBounds
  | invalidImageStream
deriving DecidableEq

/-- Modelled from the spec: single-byte read of the Byte-Stream Reader
(§4.1); fails with `OutOfBoundsError` when the offset exceeds stream
length. -/
def read_byte (s : ByteStream) (off : Nat) : Except ImgError Nat :=
  match s.get? off with
  | some b => Except.ok b
  | none => Except.error ImgError.outOfBounds

/-- Modelled from the spec: `read_int(offset, 4)` of the Byte-Stream
Reader (§4.1) with big-endian byte order: a 4-byte big-endian unsigned
integer at `off`; fails with `OutOfBoundsError` when `off + 4` exceeds
stream length. -/
def read_long (s : ByteStream) (off : Nat) : Except ImgError Nat := do
  let b0 ← read_byte s off
  let b1 ← read_byte s (off + 1)
  let b2 ← read_byte s (off + 2)
  let b3 ← read_byte s (off + 3)
  Except.ok (((b0 * 256 + b1) * 256 + b2) * 256 + b3)

/-- The 4-byte ASCII tag `IHDR` read as a big-endian integer. -/
def tagIHDR : Nat := ((73 * 256 + 72) * 256 + 68) * 256 + 82

/-- The 4-byte ASCII tag `pHYs` read as a big-endian integer. -/
def tagpHYs : Nat := ((112 * 256 + 72) * 256 + 89) * 256 + 115

/-- The 4-byte ASCII tag `IEND` read as a big-endian integer. -/
def tagIEND : Nat := ((73 * 256 + 69) * 256 + 78) * 256 + 68

/-- Modelled from the spec: the merged attribute set (§3 AttributeSet).
Pixel dimensions always come from the primary chunk; the density
attributes are absent when the optional density chunk is absent. -/
structure AttributeSet where
  px_width : Nat
  px_height : Nat
  horz_px_per_unit : Option Nat
  vert_px_per_unit : Option Nat
  units_specifier : Option Nat
deriving DecidableEq

/-- Modelled from the spec: the primary header (IHDR) chunk extractor
(§4.3): pixel width as a 4-byte big-endian unsigned int at payload
offset 0, pixel height likewise at payload offset 4. -/
def parse_IHDR (s : ByteStream) (offset : Nat) : Except ImgError (Nat × Nat) := do
  let w ← read_long s offset
  let h ← read_long s (offset + 4)
  Except.ok (w, h)

/-- Modelled from the spec: the physical-density (pHYs) chunk extractor
(§4.3): horizontal density as a 4-byte big-endian uint at payload
offset 0, vertical density at offset 4, 1-byte unit specifier at
offset 8. -/
def parse_pHYs (s : ByteStream) (offset : Nat) : Except ImgError (Nat × Nat × Nat) := do
  let horz ← read_long s offset
  let vert ← read_long s (offset + 4)
  let units ← read_byte s (offset + 8)
  Except.ok (horz, vert, units)

/-- First-match lookup in a chunk-offset table (keys are 4-byte tags read
as integers). -/
def tlookup : List (Nat × Nat) → Nat → Option Nat
  | [], _ => none
  | (a, b) :: t, k => if k = a then some b else tlookup t k

/-- Modelled from the spec: recording one `(type → payload offset)` pair
in the ChunkOffsetTable with the §4.2 tie-break policy: if the type tag
is already present, the first occurrence's offset is kept and the
duplicate is ignored. -/
def tableInsert (t : List (Nat × Nat)) (tag off : Nat) : List (Nat × Nat) :=
  if (tlookup t tag).isSome then t else t ++ [(tag, off)]

/-- Modelled from the spec: the chunk scan loop (§4.2). At the cursor,
read a 4-byte big-endian length field and the 4-byte type tag, record the
payload offset (cursor + 8), and advance by `length + header + CRC`
(= length + 12) to the next chunk header. Stops at the terminal `IEND`
chunk or when the stream is exhausted; a length that would make the scan
read past the stream end fails with `InvalidImageStreamError`. `fuel`
bounds the iteration count (each step advances the cursor by at least
12 bytes, so `s.length + 1` is always enough). -/
def scanChunksAux (s : ByteStream) : Nat → Nat → List (Nat × Nat) →
    Except ImgError (List (Nat × Nat))
  | 0, _, _ => Except.error ImgError.invalidImageStream
  | fuel + 1, cursor, table =>
    if s.length ≤ cursor then Except.ok table
    else
      match read_long s cursor, read_long s (cursor + 4) with
      | Except.ok len, Except.ok tag =>
        if s.length < cursor + 12 + len then Except.error ImgError.invalidImageStream
        else if tag = tagIEND then Except.ok (tableInsert table tag (cursor + 8))
        else scanChunksAux s fuel (cursor + 12 + len) (tableInsert table tag (cursor + 8))
      | _, _ => Except.error ImgError.invalidImageStream

/-- Modelled from the spec: the Chunk Index entry point
(`Png._parse_chunk_offsets`): scan sequentially from the known
post-signature offset 8 and produce the ChunkOffsetTable. -/
def parse_chunk_offsets (s : ByteStream) : Except ImgError (List (Nat × Nat)) :=
  scanChunksAux s (s.length + 1) 8 []

/-- The sequence of `(type tag, payload offset)` pairs of every chunk the
§4.2 scan visits, in stream order, duplicates included. Mirrors the
control flow of `scanChunksAux` but records every occurrence. -/
def chunkSeqAux (s : ByteStream) : Nat → Nat → Except ImgError (List (Nat × Nat))
  | 0, _ => Except.error ImgError.invalidImageStream
  | fuel + 1, cursor =>
    if s.length ≤ cursor then Except.ok []
    else
      match read_long s cursor, read_long s (cursor + 4) with
      | Except.ok len, Except.ok tag =>
        if s.length < cursor + 12 + len then Except.error ImgError.invalidImageStream
        else if tag = tagIEND then Except.ok [(tag, cursor + 8)]
        else
          match chunkSeqAux s fuel (cursor + 12 + len) with
          | Except.ok rest => Except.ok ((tag, cursor + 8) :: rest)
          | Except.error e => Except.error e
      | _, _ => Except.error ImgError.invalidImageStream

/-- The in-stream-order chunk occurrence list of a stream, from the
post-signature offset 8. -/
def chunkSeq (s : ByteStream) : Except ImgError (List (Nat × Nat)) :=
  chunkSeqAux s (s.length + 1) 8

/-- Modelled from the spec: the Header Parser (§4.4,
`Png._parse_chunks`): fail with `InvalidImageStreamError` if the primary
`IHDR` chunk type is absent from the table; otherwise extract the primary
chunk's fields and, when the optional density chunk is present, merge its
fields; when it is absent the density attributes stay absent. -/
def parse_chunks (s : ByteStream) (offsets : List (Nat × Nat)) :
    Except ImgError AttributeSet :=
  match tlookup offsets tagIHDR with
  | none => Except.error ImgError.invalidImageStream
  | some ihdrOff => do
    let ihdr ← parse_IHDR s ihdrOff
    match tlookup offsets tagpHYs with
    | none =>
      Except.ok
        { px_width := ihdr.1, px_height := ihdr.2, horz_px_per_unit := none,
          vert_px_per_unit := none, units_specifier := none }
    | some physOff => do
      let phys ← parse_pHYs s physOff
      Except.ok
        { px_width := ihdr.1, px_height := ihdr.2,
          horz_px_per_unit := some phys.1, vert_px_per_unit := some phys.2.1,
          units_specifier := some phys.2.2 }

/-- Round-half-to-even of the fraction `num / den` (the rounding Python's
`round` applies to the exact value), for `den ≠ 0`. -/
def pyRound (num den : Nat) : Nat :=
  let q := num / den
  let r := num % den
  if 2 * r < den then q
  else if den < 2 * r then q + 1
  else if q % 2 = 0 then q else q + 1

/-- Modelled from the spec: the DPI derivation of the Image Facade
(§4.5): when the unit specifier indicates pixels-per-meter (value 1) and
the density value is present and truthy (non-zero),
`dpi = round(density * 0.0254)`; otherwise the dpi defaults to 72. -/
def dpiFromDensity (units density : Option Nat) : Nat :=
  match density with
  | Option.none => 72
  | some d => if units = some 1 ∧ d ≠ 0 then pyRound (d * 254) 10000 else 72

/-- Modelled from the spec: the Image Facade value object (§4.5, the
`Png` class): pixel dimensions straight from the attribute set, DPI
derived once at construction. -/
structure Png where
  px_width : Nat
  px_height : Nat
  horz_dpi : Nat
  vert_dpi : Nat
deriving DecidableEq

/-- Modelled from the spec: Image Facade construction from one complete
AttributeSet (§4.5). -/
def Png.from_attrs (a : AttributeSet) : Png :=
  { px_width := a.px_width, px_height := a.px_height,
    horz_dpi := dpiFromDensity a.units_specifier a.horz_px_per_unit,
    vert_dpi := dpiFromDensity a.units_specifier a.vert_px_per_unit }

/-- First-match lookup in a string-keyed association list (the dictionary
`get` of `styleId_from_name`). -/
def slookup : List (String × String) → String → Option String
  | [], _ => none
  | (a, b) :: t, k => if k = a then some b else slookup t k

/-- The special-case name→id dictionary of `styleId_from_name`
(docx/oxml/styles.py). -/
def styleId_special : List (String × String) :=
  [("caption", "Caption"),
   ("heading 1", "Heading1"),
   ("heading 2", "Heading2"),
   ("heading 3", "Heading3"),
   ("heading 4", "Heading4"),
   ("heading 5", "Heading5"),
   ("heading 6", "Heading6"),
   ("heading 7", "Heading7"),
   ("heading 8", "Heading8"),
   ("heading 9", "Heading9")]

/-- `name.replace(' ', '')`: the string with every space character
removed. -/
def removeSpaces (s : String) : String :=
  ⟨s.data.filter (fun c => c ≠ ' ')⟩

/-- Embedded from `styleId_from_name` (docx/oxml/styles.py): the style id
for a style name, with special-case names looked up in the dictionary and
every other name returned with its spaces removed. -/
def styleId_from_name (name : String) : String :=
  match slookup styleId_special name with
  | some v => v
  | none => removeSpaces name

/-- The `WD_STYLE_TYPE` enumeration members (docx/enum/style). -/
inductive WD_STYLE_TYPE
  | character
  | list
  | paragraph
  | table
deriving DecidableEq

/-- A Python value, as far as the styles accessors inspect one: only its
truthiness and identity matter. -/
inductive PyVal
  | none
  | bool (b : Bool)
  | int (n : Int)
  | str (s : String)
deriving DecidableEq

/-- Python truthiness (`bool(v)`) of a `PyVal`. -/
def PyVal.truthy : PyVal → Bool
  | PyVal.none => false
  | PyVal.bool b => b
  | PyVal.int n => decide (n ≠ 0)
  | PyVal.str s => decide (s ≠ "")

/-- Embedded from `CT_Style` (docx/oxml/styles.py): the attributes and
the one optional child the verified accessors touch. `type` and `default`
are the optional `w:type` / `w:default` attributes (`ST_OnOff` values
read as booleans); `styleId` is the optional `w:styleId` attribute;
`semiHidden` is the optional `w:semiHidden` child, holding its `w:val`
value when present. -/
structure CT_Style where
  type : Option WD_STYLE_TYPE
  default : Option Bool
  styleId : Option String
  semiHidden : Option PyVal
deriving DecidableEq

/-- Embedded from `CT_Style.semiHidden_val` (getter, docx/oxml/styles.py
lines 112-120): the `w:semiHidden` child's value, or `False` when the
child is not present. -/
def semiHidden_val (e : CT_Style) : PyVal :=
  match e.semiHidden with
  | Option.none => PyVal.bool false
  | some v => v

/-- Embedded from `CT_Style.semiHidden_val` (setter, docx/oxml/styles.py
lines 122-127): remove any `w:semiHidden` child, then add one holding
*value* exactly when `bool(value) is True`. -/
def set_semiHidden_val (e : CT_Style) (v : PyVal) : CT_Style :=
  if v.truthy then { e with semiHidden := some v }
  else { e with semiHidden := Option.none }

/-- The filter predicate of `CT_Styles.default_for`: `w:style` elements
whose `type` equals *style_type* and whose `default` attribute is truthy
(`s.type == style_type and s.default`). -/
def isDefaultOfType (style_type : Option WD_STYLE_TYPE) (s : CT_Style) : Bool :=
  decide (s.type = style_type) && decide (s.default = some true)

/-- Embedded from `CT_Styles.default_for` (docx/oxml/styles.py lines
160-171): collect the `w:style` children with matching type and truthy
default, in document order; return `None` when there are none, else the
last one (`[-1]`). -/
def default_for (styles : List CT_Style) (style_type : Option WD_STYLE_TYPE) :
    Option CT_Style :=
  let default_styles_for_type := styles.filter (isDefaultOfType style_type)
  default_styles_for_type.getLast?

/-- A PNG stream whose post-signature chunks are two zero-length `pHYs`
chunks followed by the terminal `IEND` chunk: payload offsets 16, 28
and 40. Exercises the duplicate-chunk tie-break policy. -/
def dupStream : ByteStream :=
  [137, 80, 78, 71, 13, 10, 26, 10,
   0, 0, 0, 0, 112, 72, 89, 115, 0, 0, 0, 0,
   0, 0, 0, 0, 112, 72, 89, 115, 0, 0, 0, 0,
   0, 0, 0, 0, 73, 69, 78, 68, 0, 0, 0, 0]

/-- A stream whose first chunk header declares a 255-byte payload while
only 16 bytes exist in the whole stream: a malformed length. -/
def badLenStream : ByteStream :=
  [137, 80, 78, 71, 13, 10, 26, 10, 0, 0, 0, 255, 73, 72, 68, 82]

/-- C1: the Image Facade's horizontal and vertical DPI equal
`round(density * 0.0254)` exactly when the unit specifier is 1
(pixels-per-meter) and the corresponding density value is present and
non-zero; in every other case (unit specifier unspecified or ≠ 1,
density absent, or density zero) the DPI is 72. In particular, unit
specifier 1 with densities 5906 and 7874 yields horz_dpi 150 and
vert_dpi 200. -/
theorem png_dpi_policy :
    (∀ (a : AttributeSet) (d : Nat),
        a.units_specifier = some 1 → a.horz_px_per_unit = some d → d ≠ 0 →
        (Png.from_attrs a).horz_dpi = pyRound (d * 254) 10000) ∧
    (∀ (a : AttributeSet) (d : Nat),
        a.units_specifier = some 1 → a.vert_px_per_unit = some d → d ≠ 0 →
        (Png.from_attrs a).vert_dpi = pyRound (d * 254) 10000) ∧
    (∀ a : AttributeSet, a.units_specifier ≠ some 1 →
        (Png.from_attrs a).horz_dpi = 72 ∧ (Png.from_attrs a).vert_dpi = 72) ∧
    (∀ a : AttributeSet, a.horz_px_per_unit = Option.none ∨ a.horz_px_per_unit = some 0 →
        (Png.from_attrs a).horz_dpi = 72) ∧
    (∀ a : AttributeSet, a.vert_px_per_unit = Option.none ∨ a.vert_px_per_unit = some 0 →
        (Png.from_attrs a).vert_dpi = 72) ∧
    (Png.from_attrs ⟨42, 24, some 5906, some 7874, some 1⟩).horz_dpi = 150 ∧
    (Png.from_attrs ⟨42, 24, some 5906, some 7874, some 1⟩).vert_dpi = 200 := by
  refine ⟨?_, ?_, ?_, ?_, ?_, by decide, by decide⟩
  · intro a d hu hd hdz
    simp [Png.from_attrs, dpiFromDensity, hu, hd, hdz]
  · intro a d hu hd hdz
    simp [Png.from_attrs, dpiFromDensity, hu, hd, hdz]
  · intro a hu
    constructor
    · cases hd : a.horz_px_per_unit with
      | none => simp [Png.from_attrs, dpiFromDensity, hd]
      | some d => simp [Png.from_attrs, dpiFromDensity, hd, hu]
    · cases hd : a.vert_px_per_unit with
      | none => simp [Png.from_attrs, dpiFromDensity, hd]
      | some d => simp [Png.from_attrs, dpiFromDensity, hd, hu]
  · intro a hd
    rcases hd with hd | hd <;> simp [Png.from_attrs, dpiFromDensity, hd]
  · intro a hd
    rcases hd with hd | hd <;> simp [Png.from_attrs, dpiFromDensity, hd]

/-- Witness for C1 at the attribute set of the spec's density example. -/
theorem png_dpi_policy_witness :
    (AttributeSet.mk 42 24 (some 5906) (some 7874) (some 1)).units_specifier = some 1 ∧
    (Png.from_attrs (AttributeSet.mk 42 24 (some 5906) (some 7874) (some 1))).horz_dpi =
      pyRound (5906 * 254) 10000 :=
  ⟨rfl, png_dpi_policy.1 (AttributeSet.mk 42 24 (some 5906) (some 7874) (some 1))
    5906 rfl rfl (by decide)⟩

/-- C2: whenever the chunk-offset table lacks the primary `IHDR` chunk
type, the header parse fails with `InvalidImageStreamError` and no
attribute set is returned. -/
theorem parse_chunks_missing_IHDR :
    ∀ (s : ByteStream) (offsets : List (Nat × Nat)),
      tlookup offsets tagIHDR = Option.none →
      parse_chunks s offsets = Except.error ImgError.invalidImageStream := by
  intro s offsets h
  simp [parse_chunks, h]

/-- Witness for C2: a table holding only a `pHYs` entry has no `IHDR`
entry, and the header parse errors on it. -/
theorem parse_chunks_missing_IHDR_witness :
    tlookup [(tagpHYs, 16)] tagIHDR = Option.none ∧
    parse_chunks dupStream [(tagpHYs, 16)] = Except.error ImgError.invalidImageStream :=
  ⟨by decide, parse_chunks_missing_IHDR dupStream [(tagpHYs, 16)] (by decide)⟩

/-- C3: the `IHDR` extractor returns exactly the pixel width decoded as
the 4-byte big-endian unsigned integer at payload offset 0 and the pixel
height decoded likewise at payload offset 4; on the payload bytes
`00 00 00 2A 00 00 00 18` it yields width 42 and height 24. -/
theorem parse_IHDR_fields :
    (∀ (s : ByteStream) (off b0 b1 b2 b3 b4 b5 b6 b7 : Nat),
      s.get? off = some b0 → s.get? (off + 1) = some b1 →
      s.get? (off + 2) = some b2 → s.get? (off + 3) = some b3 →
      s.get? (off + 4) = some b4 → s.get? (off + 5) = some b5 →
      s.get? (off + 6) = some b6 → s.get? (off + 7) = some b7 →
      parse_IHDR s off =
        Except.ok (((b0 * 256 + b1) * 256 + b2) * 256 + b3,
          ((b4 * 256 + b5) * 256 + b6) * 256 + b7)) ∧
    parse_IHDR [0x00, 0x00, 0x00, 0x2A, 0x00, 0x00, 0x00, 0x18] 0 = Except.ok (42, 24) := by
  constructor
  · intro s off b0 b1 b2 b3 b4 b5 b6 b7 h0 h1 h2 h3 h4 h5 h6 h7
    simp only [List.get?_eq_getElem?] at h0 h1 h2 h3 h4 h5 h6 h7
    simp [parse_IHDR, read_long, read_byte, Nat.add_assoc,
      h0, h1, h2, h3, h4, h5, h6, h7]
    rfl
  · rfl

/-- Witness for C3 at the spec's example payload. -/
theorem parse_IHDR_fields_witness :
    ([0, 0, 0, 42, 0, 0, 0, 24] : ByteStream).get? 0 = some 0 ∧
    parse_IHDR [0, 0, 0, 42, 0, 0, 0, 24] 0 =
      Except.ok (((0 * 256 + 0) * 256 + 0) * 256 + 42,
        ((0 * 256 + 0) * 256 + 0) * 256 + 24) :=
  ⟨rfl, parse_IHDR_fields.1 [0, 0, 0, 42, 0, 0, 0, 24] 0 0 0 0 42 0 0 0 24
    rfl rfl rfl rfl rfl rfl rfl rfl⟩

/-- C4: the `pHYs` extractor returns exactly the horizontal density as
the 4-byte big-endian unsigned integer at payload offset 0, the vertical
density likewise at payload offset 4, and the 1-byte unit specifier at
payload offset 8; on the payload bytes `00 00 17 12 00 00 1E C2 01` it
yields 5906, 7874 and 1. -/
theorem parse_pHYs_fields :
    (∀ (s : ByteStream) (off b0 b1 b2 b3 b4 b5 b6 b7 b8 : Nat),
      s.get? off = some b0 → s.get? (off + 1) = some b1 →
      s.get? (off + 2) = some b2 → s.get? (off + 3) = some b3 →
      s.get? (off + 4) = some b4 → s.get? (off + 5) = some b5 →
      s.get? (off + 6) = some b6 → s.get? (off + 7) = some b7 →
      s.get? (off + 8) = some b8 →
      parse_pHYs s off =
        Except.ok (((b0 * 256 + b1) * 256 + b2) * 256 + b3,
          ((b4 * 256 + b5) * 256 + b6) * 256 + b7, b8)) ∧
    parse_pHYs [0x00, 0x00, 0x17, 0x12, 0x00, 0x00, 0x1E, 0xC2, 0x01] 0 =
      Except.ok (5906, 7874, 1) := by
  constructor
  · intro s off b0 b1 b2 b3 b4 b5 b6 b7 b8 h0 h1 h2 h3 h4 h5 h6 h7 h8
    simp only [List.get?_eq_getElem?] at h0 h1 h2 h3 h4 h5 h6 h7 h8
    simp [parse_pHYs, read_long, read_byte, Nat.add_assoc,
      h0, h1, h2, h3, h4, h5, h6, h7, h8]
    rfl
  · rfl

/-- Witness for C4 at the spec's example payload. -/
theorem parse_pHYs_fields_witness :
    ([0, 0, 23, 18, 0, 0, 30, 194, 1] : ByteStream).get? 0 = some 0 ∧
    parse_pHYs [0, 0, 23, 18, 0, 0, 30, 194, 1] 0 =
      Except.ok (((0 * 256 + 0) * 256 + 23) * 256 + 18,
        ((0 * 256 + 0) * 256 + 30) * 256 + 194, 1) :=
  ⟨rfl, parse_pHYs_fields.1 [0, 0, 23, 18, 0, 0, 30, 194, 1] 0 0 0 23 18 0 0 30 194 1
    rfl rfl rfl rfl rfl rfl rfl rfl rfl⟩

/-- C7: the chunk-offset scan is a pure function of the byte source:
running it twice on the same stream yields two identical chunk-offset
tables. -/
theorem parse_chunk_offsets_idempotent :
    ∀ (s : ByteStream) (r₁ r₂ : Except ImgError (List (Nat × Nat))),
      parse_chunk_offsets s = r₁ → parse_chunk_offsets s = r₂ → r₁ = r₂ := by
  intro s r₁ r₂ h₁ h₂
  rw [← h₁, ← h₂]

/-- Witness for C7: two scans of the duplicate-chunk stream agree. -/
theorem parse_chunk_offsets_idempotent_witness :
    parse_chunk_offsets dupStream = Except.ok [(tagpHYs, 16), (tagIEND, 40)] ∧
    (Except.ok [(tagpHYs, 16), (tagIEND, 40)] :
        Except ImgError (List (Nat × Nat))) =
      Except.ok [(tagpHYs, 16), (tagIEND, 40)] :=
  ⟨rfl, parse_chunk_offsets_idempotent dupStream _ _ rfl rfl⟩

/-- Helper for C5: every error the chunk scan produces, at any fuel,
cursor and partial table, is `InvalidImageStreamError`. -/
theorem scanChunksAux_error_eq (s : ByteStream) :
    ∀ (fuel cursor : Nat) (t : List (Nat × Nat)) (e : ImgError),
      scanChunksAux s fuel cursor t = Except.error e →
      e = ImgError.invalidImageStream := by
  intro fuel
  induction fuel with
  | zero =>
    intro cursor t e h
    simp only [scanChunksAux, Except.error.injEq] at h
    exact h.symm
  | succ n ih =>
    intro cursor t e h
    simp only [scanChunksAux] at h
    by_cases hc : s.length ≤ cursor
    · simp [hc] at h
    · simp only [if_neg hc] at h
      cases h1 : read_long s cursor with
      | error e1 =>
        cases h2 : read_long s (cursor + 4) with
        | error e2 => rw [h1, h2] at h; simp only [Except.error.injEq] at h; exact h.symm
        | ok tag => rw [h1, h2] at h; simp only [Except.error.injEq] at h; exact h.symm
      | ok len =>
        cases h2 : read_long s (cursor + 4) with
        | error e2 => rw [h1, h2] at h; simp only [Except.error.injEq] at h; exact h.symm
        | ok tag =>
          rw [h1, h2] at h
          by_cases hl : s.length < cursor + 12 + len
          · simp only [if_pos hl, Except.error.injEq] at h; exact h.symm
          · simp only [if_neg hl] at h
            by_cases he : tag = tagIEND
            · simp [he] at h
            · simp only [if_neg he] at h
              exact ih _ _ _ h

/-- C5: when the scan reads a chunk length field whose value would make
it read past the end of the stream, it fails, and every failure the scan
can produce is `InvalidImageStreamError` (never another error kind). -/
theorem scan_bad_length_fails :
    (∀ (s : ByteStream) (fuel cursor len tag : Nat) (t : List (Nat × Nat)),
        cursor < s.length →
        read_long s cursor = Except.ok len →
        read_long s (cursor + 4) = Except.ok tag →
        s.length < cursor + 12 + len →
        scanChunksAux s (fuel + 1) cursor t = Except.error ImgError.invalidImageStream) ∧
    (∀ (s : ByteStream) (e : ImgError),
        parse_chunk_offsets s = Except.error e → e = ImgError.invalidImageStream) := by
  constructor
  · intro s fuel cursor len tag t hcur h1 h2 hl
    simp only [scanChunksAux, if_neg (Nat.not_le.mpr hcur), h1, h2, if_pos hl]
  · intro s e h
    exact scanChunksAux_error_eq s _ _ _ _ h

/-- Witness for C5: the malformed-length stream's first chunk declares a
255-byte payload inside a 16-byte stream, and the scan errors. -/
theorem scan_bad_length_fails_witness :
    (8 < badLenStream.length ∧
      read_long badLenStream 8 = Except.ok 255 ∧
      read_long badLenStream 12 = Except.ok tagIHDR ∧
      badLenStream.length < 8 + 12 + 255) ∧
    scanChunksAux badLenStream (badLenStream.length + 1) 8 [] =
      Except.error ImgError.invalidImageStream :=
  ⟨⟨by decide, rfl, rfl, by decide⟩,
    scan_bad_length_fails.1 badLenStream badLenStream.length 8 255 tagIHDR []
      (by decide) rfl rfl (by decide)⟩

/-- Helper for C6: an entry whose tag differs from the key being looked
up can be dropped from the middle of a table without changing the lookup
result. -/
theorem tlookup_skip (k tag : Nat) (hk : k ≠ tag) :
    ∀ (t rest : List (Nat × Nat)) (off : Nat),
      tlookup (t ++ (tag, off) :: rest) k = tlookup (t ++ rest) k := by
  intro t
  induction t with
  | nil => intro rest off; simp [tlookup, hk]
  | cons p t ih =>
    intro rest off
    obtain ⟨a, b⟩ := p
    by_cases hka : k = a <;> simp [tlookup, hka, ih]

/-- Helper for C6: inserting under a head entry with a different tag
commutes with the head. -/
theorem tableInsert_cons (a b tag off : Nat) (t : List (Nat × Nat)) (h : tag ≠ a) :
    tableInsert ((a, b) :: t) tag off = (a, b) :: tableInsert t tag off := by
  by_cases hs : (tlookup t tag).isSome <;> simp [tableInsert, tlookup, h, hs]

/-- Helper for C6: looking a key up in the table after a first-wins
insert, followed by any suffix, is the same as looking it up in the table
with the inserted pair placed right after it. -/
theorem tableInsert_append_tlookup :
    ∀ (t : List (Nat × Nat)) (tag off : Nat) (rest : List (Nat × Nat)) (k : Nat),
      tlookup (tableInsert t tag off ++ rest) k = tlookup (t ++ (tag, off) :: rest) k := by
  intro t
  induction t with
  | nil => intro tag off rest k; simp [tableInsert, tlookup]
  | cons p t ih =>
    intro tag off rest k
    obtain ⟨a, b⟩ := p
    by_cases hta : tag = a
    · subst hta
      have hins : tableInsert ((tag, b) :: t) tag off = (tag, b) :: t := by
        simp [tableInsert, tlookup]
      rw [hins]
      by_cases hk : k = tag
      · simp [tlookup, hk]
      · simp only [List.cons_append, tlookup, if_neg hk]
        exact (tlookup_skip k tag hk t rest off).symm
    · rw [tableInsert_cons a b tag off t hta]
      by_cases hk : k = a
      · simp [tlookup, hk]
      · simp only [List.cons_append, tlookup, if_neg hk]
        exact ih tag off rest k

/-- Helper for C6: when the scan and the occurrence enumeration both
succeed, a lookup in the scan's table (seeded with `t`) agrees with a
lookup in `t` followed by the in-order occurrence list. -/
theorem scan_seq_tlookup (s : ByteStream) :
    ∀ (fuel cursor : Nat) (t tbl l : List (Nat × Nat)),
      scanChunksAux s fuel cursor t = Except.ok tbl →
      chunkSeqAux s fuel cursor = Except.ok l →
      ∀ k, tlookup tbl k = tlookup (t ++ l) k := by
  intro fuel
  induction fuel with
  | zero => intro cursor t tbl l h _ k; simp [scanChunksAux] at h
  | succ n ih =>
    intro cursor t tbl l hscan hseq k
    simp only [scanChunksAux] at hscan
    simp only [chunkSeqAux] at hseq
    by_cases hc : s.length ≤ cursor
    · simp only [if_pos hc, Except.ok.injEq] at hscan hseq
      subst hscan
      subst hseq
      simp
    · simp only [if_neg hc] at hscan hseq
      cases h1 : read_long s cursor with
      | error e1 =>
        cases h2 : read_long s (cursor + 4) with
        | error e2 => rw [h1, h2] at hscan; simp at hscan
        | ok tag => rw [h1, h2] at hscan; simp at hscan
      | ok len =>
        cases h2 : read_long s (cursor + 4) with
        | error e2 => rw [h1, h2] at hscan; simp at hscan
        | ok tag =>
          rw [h1, h2] at hscan hseq
          by_cases hl : s.length < cursor + 12 + len
          · simp [if_pos hl] at hscan
          · simp only [if_neg hl] at hscan hseq
            by_cases he : tag = tagIEND
            · simp only [if_pos he, Except.ok.injEq] at hscan hseq
              subst hscan
              subst hseq
              have h4 := tableInsert_append_tlookup t tag (cursor + 8) [] k
              simpa using h4
            · simp only [if_neg he] at hscan hseq
              cases h3 : chunkSeqAux s n (cursor + 12 + len) with
              | error e => rw [h3] at hseq; simp at hseq
              | ok rest =>
                rw [h3] at hseq
                simp only [Except.ok.injEq] at hseq
                subst hseq
                have hmain := ih (cursor + 12 + len) (tableInsert t tag (cursor + 8))
                  tbl rest hscan h3 k
                rw [hmain]
                exact tableInsert_append_tlookup t tag (cursor + 8) rest k

/-- C6: when a stream's chunk scan succeeds, the resulting chunk-offset
table maps every type tag to the payload offset of that tag's first
occurrence in stream order (the first-match lookup in the in-order
occurrence list); later duplicates are ignored. -/
theorem chunk_table_first_occurrence :
    ∀ (s : ByteStream) (tbl occ : List (Nat × Nat)),
      parse_chunk_offsets s = Except.ok tbl →
      chunkSeq s = Except.ok occ →
      ∀ tag, tlookup tbl tag = tlookup occ tag := by
  intro s tbl occ h1 h2 tag
  have h3 := scan_seq_tlookup s (s.length + 1) 8 [] tbl occ h1 h2 tag
  simpa using h3

/-- Witness for C6: in the two-`pHYs` stream the table keeps the first
occurrence's payload offset 16, not the duplicate's 28. -/
theorem chunk_table_first_occurrence_witness :
    parse_chunk_offsets dupStream = Except.ok [(tagpHYs, 16), (tagIEND, 40)] ∧
    chunkSeq dupStream = Except.ok [(tagpHYs, 16), (tagpHYs, 28), (tagIEND, 40)] ∧
    tlookup [(tagpHYs, 16), (tagIEND, 40)] tagpHYs =
      tlookup [(tagpHYs, 16), (tagpHYs, 28), (tagIEND, 40)] tagpHYs :=
  ⟨rfl, rfl, chunk_table_first_occurrence dupStream _ _ rfl rfl tagpHYs⟩

/-- C8: `styleId_from_name` returns the fixed camel-case id for each of
the ten special-case names and, for every other name, the name with
every space character removed. -/
theorem styleId_from_name_spec :
    styleId_from_name "caption" = "Caption" ∧
    styleId_from_name "heading 1" = "Heading1" ∧
    styleId_from_name "heading 2" = "Heading2" ∧
    styleId_from_name "heading 3" = "Heading3" ∧
    styleId_from_name "heading 4" = "Heading4" ∧
    styleId_from_name "heading 5" = "Heading5" ∧
    styleId_from_name "heading 6" = "Heading6" ∧
    styleId_from_name "heading 7" = "Heading7" ∧
    styleId_from_name "heading 8" = "Heading8" ∧
    styleId_from_name "heading 9" = "Heading9" ∧
    ∀ name : String,
      name ∉ ["caption", "heading 1", "heading 2", "heading 3", "heading 4",
        "heading 5", "heading 6", "heading 7", "heading 8", "heading 9"] →
      styleId_from_name name = removeSpaces name := by
  refine ⟨by decide, by decide, by decide, by decide, by decide, by decide,
    by decide, by decide, by decide, by decide, ?_⟩
  intro name h
  simp only [List.mem_cons, List.not_mem_nil, or_false, not_or] at h
  obtain ⟨h1, h2, h3, h4, h5, h6, h7, h8, h9, h10⟩ := h
  simp [styleId_from_name, slookup, styleId_special,
    h1, h2, h3, h4, h5, h6, h7, h8, h9, h10]

/-- Witness for C8: `"My Style 1"` is not a special-case name and its id
is the name with the spaces removed. -/
theorem styleId_from_name_spec_witness :
    "My Style 1" ∉ ["caption", "heading 1", "heading 2", "heading 3", "heading 4",
      "heading 5", "heading 6", "heading 7", "heading 8", "heading 9"] ∧
    styleId_from_name "My Style 1" = removeSpaces "My Style 1" :=
  ⟨by decide,
    styleId_from_name_spec.2.2.2.2.2.2.2.2.2.2 "My Style 1" (by decide)⟩

/-- The last element of a list satisfying `p`, scanning the list in
order: the claim's "last such child in document order". -/
def lastSatisfying (p : CT_Style → Bool) : List CT_Style → Option CT_Style
  | [] => Option.none
  | s :: rest =>
    match lastSatisfying p rest with
    | some r => some r
    | Option.none => if p s then some s else Option.none

/-- Helper for C9: the last element of the filtered list is the last
element satisfying the predicate. -/
theorem filter_getLast?_eq_lastSatisfying (p : CT_Style → Bool) :
    ∀ l : List CT_Style, (l.filter p).getLast? = lastSatisfying p l := by
  intro l
  induction l with
  | nil => rfl
  | cons s rest ih =>
    rw [List.filter_cons, lastSatisfying, ← ih]
    cases hrest : rest.filter p with
    | nil =>
      by_cases hp : p s <;> simp [hp, hrest]
    | cons b bs =>
      cases hg : (b :: bs).getLast? with
      | none => simp at hg
      | some y =>
        by_cases hp : p s <;> simp [hp, hrest, hg, List.getLast?_cons_cons]

/-- C9: `default_for` returns `None` exactly when no `w:style` child has
both a matching type and a truthy default attribute, and otherwise
returns the last such child in document order. -/
theorem default_for_spec :
    ∀ (styles : List CT_Style) (style_type : Option WD_STYLE_TYPE),
      (default_for styles style_type = Option.none ↔
        ∀ s ∈ styles, ¬(s.type = style_type ∧ s.default = some true)) ∧
      default_for styles style_type =
        lastSatisfying (isDefaultOfType style_type) styles := by
  intro styles style_type
  constructor
  · rw [default_for, List.getLast?_eq_none_iff, List.filter_eq_nil_iff]
    constructor
    · intro h s hs
      have h2 := h s hs
      simp [isDefaultOfType] at h2
      intro hc
      exact absurd hc.2 (h2 hc.1)
    · intro h s hs
      have h2 := h s hs
      simp [isDefaultOfType]
      intro ht
      intro hd
      exact h2 ⟨ht, hd⟩
  · exact filter_getLast?_eq_lastSatisfying (isDefaultOfType style_type) styles

/-- C10: after assigning `semiHidden_val = v`, the element has a
`w:semiHidden` child iff `bool(v)` is `True`; a read of `semiHidden_val`
returns `False` (never `None`) whenever the child is absent; assigning a
falsy value then reading yields `False`. -/
theorem semiHidden_val_roundtrip :
    (∀ (e : CT_Style) (v : PyVal),
        ((set_semiHidden_val e v).semiHidden ≠ Option.none ↔ v.truthy = true)) ∧
    (∀ e : CT_Style, e.semiHidden = Option.none →
        semiHidden_val e = PyVal.bool false) ∧
    (∀ (e : CT_Style) (v : PyVal), v.truthy = false →
        semiHidden_val (set_semiHidden_val e v) = PyVal.bool false) := by
  refine ⟨?_, ?_, ?_⟩
  · intro e v
    by_cases ht : v.truthy <;> simp [set_semiHidden_val, ht]
  · intro e he
    simp [semiHidden_val, he]
  · intro e v ht
    simp [set_semiHidden_val, semiHidden_val, ht]

/-- Witness for C10: assigning the falsy value `0` to an element that
had a `w:semiHidden` child removes the child and a read returns
`False`. -/
theorem semiHidden_val_roundtrip_witness :
    (PyVal.int 0).truthy = false ∧
    semiHidden_val
      (set_semiHidden_val
        (CT_Style.mk Option.none Option.none Option.none (some (PyVal.bool true)))
        (PyVal.int 0)) = PyVal.bool false :=
  ⟨by decide,
    semiHidden_val_roundtrip.2.2
      (CT_Style.mk Option.none Option.none Option.none (some (PyVal.bool true)))
      (PyVal.int 0) (by decide)⟩

/-- Witness for C9 at a concrete styles list: with two matching default
paragraph styles the last one in document order is returned. -/
theorem default_for_spec_witness :
    default_for
      [CT_Style.mk (some WD_STYLE_TYPE.paragraph) (some true) (some "A") Option.none,
       CT_Style.mk (some WD_STYLE_TYPE.paragraph) (some true) (some "B") Option.none]
      (some WD_STYLE_TYPE.paragraph) =
      lastSatisfying (isDefaultOfType (some WD_STYLE_TYPE.paragraph))
        [CT_Style.mk (some WD_STYLE_TYPE.paragraph) (some true) (some "A") Option.none,
         CT_Style.mk (some WD_STYLE_TYPE.paragraph) (some true) (some "B") Option.none] :=
  (default_for_spec
    [CT_Style.mk (some WD_STYLE_TYPE.paragraph) (some true) (some "A") Option.none,
     CT_Style.mk (some WD_STYLE_TYPE.paragraph) (some true) (some "B") Option.none]
    (some WD_STYLE_TYPE.paragraph)).2
